import Mathlib

/-!
Verification of the slot-filling dialogue engine of the WhatsApp appointment
chatbot (source files `main.py` and `llm_utils.py`).  Python dict values of
string-valued session fields are modelled as `Option String` (`none` models
both a missing key and Python `None`); Python truthiness of such a value is
`pyTruthy`.  The external `dateparser.parse` library call is modelled as an
abstract function parameter `parse : String -> Option PyDateTime`.
-/

namespace Chatbot

/-- Whitespace characters of Python `str.strip` and `str.split()` for the
ASCII range (the session values in play contain no exotic Unicode
whitespace). -/
def pyIsSpaceChar (c : Char) : Bool :=
  c = ' ' || c = '\t' || c = '\n' || c = '\r' || c = '\x0b' || c = '\x0c'

/-- Python `str.strip()` on the character list. -/
def pyStripChars (cs : List Char) : List Char :=
  ((cs.dropWhile pyIsSpaceChar).reverse.dropWhile pyIsSpaceChar).reverse

/-- Python `str.strip()`. -/
def pyStrip (s : String) : String :=
  String.mk (pyStripChars s.data)

/-- Python `str.lower()` (ASCII). -/
def pyLower (s : String) : String :=
  String.mk (s.data.map Char.toLower)

/-- Word accumulator behind `pySplit`. -/
def pyWordsAux : List Char → List Char → List (List Char)
  | [], acc => if acc = [] then [] else [acc.reverse]
  | c :: cs, acc =>
      if pyIsSpaceChar c then
        if acc = [] then pyWordsAux cs []
        else acc.reverse :: pyWordsAux cs []
      else pyWordsAux cs (c :: acc)

/-- Python `str.split()` with no argument: split on whitespace runs, dropping
empty pieces. -/
def pySplit (s : String) : List String :=
  (pyWordsAux s.data []).map String.mk

/-- Python `" ".join(parts)`. -/
def joinSpace : List String → String
  | [] => ""
  | [x] => x
  | x :: xs => x ++ " " ++ joinSpace xs

/-- Python truthiness of an optional string value: `None` and `""` are falsy. -/
def pyTruthy : Option String → Bool
  | none => false
  | some s => s ≠ ""

/-- Truthiness test the reconciler applies to candidate values:
`v not in [None, ""]` (llm_utils.py lines 515 and 518). -/
def pyNonEmptyVal : Option String → Bool
  | none => false
  | some s => s ≠ ""

/-- Session dictionary from `make_empty_session` (main.py lines 26-34) plus the
medicine-delivery keys added later (`prescription_uploaded`,
`prescription_media_id`, `medicine_text`). -/
structure Session where
  name : Option String
  age : Option String
  date : Option String
  time : Option String
  category : Option String
  sub_category : Option String
  location : Option String
  location_coords : Option String
  location_address : Option String
  awaiting_address : Bool
  awaiting_field : Option String
  confirmed : Bool
  greeted : Bool
  state : Option String
  last_interaction : Option String
  prescription_uploaded : Bool
  prescription_media_id : Option String
  medicine_text : Option String
deriving Repr, DecidableEq

/-- The empty session created by `make_empty_session` (main.py lines 26-34). -/
def make_empty_session : Session where
  name := none
  age := none
  date := none
  time := none
  category := none
  sub_category := none
  location := none
  location_coords := none
  location_address := none
  awaiting_address := false
  awaiting_field := none
  confirmed := false
  greeted := false
  state := some "main_menu"
  last_interaction := none
  prescription_uploaded := false
  prescription_media_id := none
  medicine_text := none

/-- The six required schema fields the next-missing-field logic scans. -/
inductive Field where
  | date
  | time
  | age
  | location
  | category
  | sub_category
deriving Repr, DecidableEq

/-- Reading one required field out of a session. -/
def getField (s : Session) : Field → Option String
  | .date => s.date
  | .time => s.time
  | .age => s.age
  | .location => s.location
  | .category => s.category
  | .sub_category => s.sub_category

/-- The `is_missing` test of the structured handlers (main.py lines 574-576,
628-630, 679-681, 742-744, 850-852, 966-968):
`(val is None) or (str(val).strip() == "") or (field == "time" and val == "00:00")`. -/
def is_missing (s : Session) (f : Field) : Bool :=
  match getField s f with
  | none => true
  | some v => pyStrip v = "" || (f = .time && v = "00:00")

/-- First missing field of a priority list: the loop
`for f in priority: if is_missing(f): next_field = f; break`. -/
def firstMissing (fs : List Field) (s : Session) : Option Field :=
  fs.find? (is_missing s)

/-- The canonical priority order the specification states:
date, time, age, location, category, sub_category. -/
def claim_priority : List Field :=
  [Field.date, Field.time, Field.age, Field.location, Field.category, Field.sub_category]

/-- Priority list of the date-selection handler (main.py line 740):
`["time", "age", "location", "category", "sub_category"]`. -/
def priority_after_date : List Field :=
  [Field.time, Field.age, Field.location, Field.category, Field.sub_category]

/-- Priority list of the time-selection handler (main.py line 849):
`["date", "age", "location", "category", "sub_category"]`. -/
def priority_after_time : List Field :=
  [Field.date, Field.age, Field.location, Field.category, Field.sub_category]

/-- Priority list of the structured sub-category, medicine-text and
prescription handlers (main.py lines 573, 627, 678): `["date", "time", "age",
"location"]`. -/
def priority_subcat : List Field :=
  [Field.date, Field.time, Field.age, Field.location]

/-- Priority list of the free-text fast path when a time-of-day word was found
(with or without a date word — main.py line 964 selects
`["time", "age", "location", "category", "sub_category"]` only when a date
word was found alone, and this list otherwise):
`["age", "location", "category", "sub_category"]`.  It does not contain
`date`, so the time-only case never prompts for a date. -/
def priority_free_text_both : List Field :=
  [Field.age, Field.location, Field.category, Field.sub_category]

/-- Field order of the LLM-path prompt chain (main.py lines 1144-1231):
date, time, age, category, sub_category, location. -/
def llm_priority : List Field :=
  [Field.date, Field.time, Field.age, Field.category, Field.sub_category, Field.location]

/-- Missing test of the LLM-path prompt chain (main.py lines 1144-1231): plain
truthiness for every field, plus the `"00:00"` sentinel for `time` only. -/
def llmMissing (s : Session) (f : Field) : Bool :=
  match f with
  | .time => !pyTruthy s.time || s.time = some "00:00"
  | f => !pyTruthy (getField s f)

/-- The elif chain of main.py lines 1144-1231 selecting which single field the
LLM path asks for next (`date` at 1144, `time` at 1156, `age` at 1167,
`category` at 1173, `sub_category` at 1186, `location` at 1219). -/
def llmNextField (s : Session) : Option Field :=
  if !pyTruthy s.date then some .date
  else if !pyTruthy s.time || s.time = some "00:00" then some .time
  else if !pyTruthy s.age then some .age
  else if !pyTruthy s.category then some .category
  else if !pyTruthy s.sub_category then some .sub_category
  else if !pyTruthy s.location then some .location
  else none

/-- Completeness guard used at the confirmation sites (main.py lines 288, 427,
499, 1233): `all([date, time, category, sub_category, location, age])`. -/
def requiredComplete (s : Session) : Bool :=
  pyTruthy s.date && pyTruthy s.time && pyTruthy s.category &&
    pyTruthy s.sub_category && pyTruthy s.location && pyTruthy s.age

/-- Sentinel guard `sess.get("time") not in [None, "", "00:00"]` (main.py
lines 288, 427, 499, 827, 1233). -/
def timeNotSentinel (s : Session) : Bool :=
  match s.time with
  | none => false
  | some t => t ≠ "" && t ≠ "00:00"

-- -------------------------------------------------------------------
-- Reconciler (llm_utils.py lines 508-539)
-- -------------------------------------------------------------------

/-- Per-field merge of llm_utils.py lines 512-519: start from the previous
session value, let the rule-based (Fast Extractor) value in when it is
non-empty and the slot is still falsy, then the LLM (Semantic Extractor)
value likewise. -/
def mergeField (prev rb llm : Option String) : Option String :=
  let m1 := if pyNonEmptyVal rb && !pyTruthy prev then rb else prev
  if pyNonEmptyVal llm && !pyTruthy m1 then llm else m1

/-- CATEGORY_MAP of llm_utils.py lines 16-26. -/
def CATEGORY_MAP : List (String × List String) :=
  [ ("care at home", ["nurse visit", "physiotherapy", "elderly care", "post surgery care"]),
    ("medicine delivery", ["regular medicines", "urgent medicines", "upload prescription"]),
    ("lab test", ["blood test", "urine test", "covid test", "full body checkup"]) ]

/-- Dictionary lookup `CATEGORY_MAP.get(cat_norm)`. -/
def lookupCategory (cat : String) : Option (List String) :=
  (CATEGORY_MAP.find? (fun p => p.1 = cat)).map (fun p => p.2)

/-- `normalize_category_for_compare` (llm_utils.py lines 152-155): empty on a
falsy input, otherwise replace underscores with spaces, strip and lowercase. -/
def normalize_category_for_compare (cat : Option String) : String :=
  match cat with
  | none => ""
  | some c =>
      if c = "" then ""
      else pyLower (pyStrip (String.mk (c.data.map (fun ch => if ch = '_' then ' ' else ch))))

/-- Allowed-sub-category enforcement of the reconciler (llm_utils.py lines
527-534): when the merged category has an allowed list and the merged
sub_category is truthy but its stripped lowercase form is not in the
normalized allowed list, null the sub_category. -/
def enforce_subcategory (s : Session) : Session :=
  if pyTruthy s.category then
    match lookupCategory (normalize_category_for_compare s.category) with
    | some allowed =>
        if allowed ≠ [] then
          let allowed_norm := allowed.map (fun x => pyLower (pyStrip x))
          match s.sub_category with
          | some sub =>
              if sub ≠ "" ∧ pyLower (pyStrip sub) ∉ allowed_norm then
                { s with sub_category := none }
              else s
          | none => s
        else s
    | none => s
  else s

-- -------------------------------------------------------------------
-- Duplicate suppression (main.py lines 229-237)
-- -------------------------------------------------------------------

/-- One pass over the recently-seen id set: returns `(true, ids)` and stops
when the id was seen, otherwise clears the set when it holds more than 2000
ids and records the new id.  Models main.py lines 230-237. -/
def dedupe (ids : List String) (mid : String) : Bool × List String :=
  if mid ∈ ids then (true, ids)
  else
    let ids := if ids.length > 2000 then [] else ids
    (false, mid :: ids)

/-- A whole webhook delivery: the duplicate check runs first and a duplicate
returns `{"status": "ignored"}` before any session read or send, so the body
(abstracted as any function from the stored session to a new session and a
list of outbound messages) only runs on fresh ids. -/
def webhookStep (ids : List String) (sess : Option Session) (mid : String)
    (body : Option Session → Option Session × List String) :
    List String × Option Session × List String :=
  let d := dedupe ids mid
  if d.1 then (d.2, sess, [])
  else (d.2, (body sess).1, (body sess).2)

-- -------------------------------------------------------------------
-- Confirmation replies (main.py lines 343-388)
-- -------------------------------------------------------------------

/-- Outcome of the confirmation-reply dispatcher. -/
inductive ReplyOut where
  | bookingConfirmed
  | menuShown
  | cancelResetDone
  | politeClose
deriving Repr, DecidableEq

/-- Affirmative test of main.py line 344:
`normalized in {"yes","y","confirm","ok","sure"} or user_text == "confirm_yes"`
with `normalized = (user_text or "").strip().lower()`. -/
def isAffirmative (t : String) : Bool :=
  ["yes", "y", "confirm", "ok", "sure"].contains (pyLower (pyStrip t)) || t = "confirm_yes"

/-- Negative test of main.py line 379. -/
def isNegative (t : String) : Bool :=
  ["no", "cancel", "stop"].contains (pyLower (pyStrip t)) || t = "confirm_no"

/-- State of an optionally-stored session; an absent entry gives the falsy
empty dict of `session_data.get(user_number, {})`. -/
def stateOf : Option Session → Option String
  | none => none
  | some s => s.state

/-- Main.py lines 344-388: an affirmative reply in `confirming` state emits the
structured booking record and resets the session; outside `confirming` it only
re-shows the three-option service menu and leaves the store untouched.  A
negative reply cancels in `confirming` and closes politely otherwise.  `none`
means neither branch matched and the handler falls through. -/
def confirmReplyHandler (stored : Option Session) (userText : String) :
    Option (ReplyOut × Option Session) :=
  if isAffirmative userText then
    if stateOf stored = some "confirming" then
      some (.bookingConfirmed, some make_empty_session)
    else
      some (.menuShown, stored)
  else if isNegative userText then
    if stateOf stored = some "confirming" then
      some (.cancelResetDone, some make_empty_session)
    else
      some (.politeClose, stored)
  else none

-- -------------------------------------------------------------------
-- Normalizer (llm_utils.py lines 135-204)
-- -------------------------------------------------------------------

/-- A parsed datetime, carrying the two strftime renderings the code uses:
`%Y-%m-%d` and `%H:%M`. -/
structure PyDateTime where
  ymd : String
  hm : String
deriving Repr, DecidableEq

/-- The `friendly_times` dict of `normalize_date_time` (llm_utils.py lines
161-166), in insertion order. -/
def friendly_times : List (String × String) :=
  [("morning", "09:00"), ("afternoon", "15:00"), ("evening", "18:00"), ("night", "20:00")]

/-- Dict lookup `friendly_times[t]` / `t in friendly_times`. -/
def friendlyLookup (t : String) : Option String :=
  (friendly_times.find? (fun p => p.1 = t)).map (fun p => p.2)

/-- Condition and value of the second branch of `normalize_date_time`
(llm_utils.py line 169): the time phrase is truthy and its lowercase form is a
friendly time word. -/
def timeFriendly (time_str : Option String) : Option String :=
  match time_str with
  | none => none
  | some t => if t = "" then none else friendlyLookup (pyLower t)

/-- The token-scanning branch of `normalize_date_time` (llm_utils.py lines
178-188): when the lowered, split date phrase contains a friendly time word,
drop that word, parse the remainder (when non-blank) and return the friendly
canonical time.  Returns `none` when no token matches and the function falls
through to the later branches. -/
def dateTokenBranch (parse : String → Option PyDateTime) (date_str : Option String) :
    Option (Option String × Option String) :=
  match date_str with
  | none => none
  | some d =>
      if d = "" then none
      else
        let parts := pySplit (pyLower d)
        match friendly_times.find? (fun p => parts.contains p.1) with
        | none => none
        | some tc =>
            let date_only := joinSpace (parts.filter (fun p => p ≠ tc.1))
            let dt := if pyStrip date_only ≠ "" then parse date_only else none
            some (dt.map (fun x => x.ymd), some tc.2)

/-- The `if date_str and time_str` branch of `normalize_date_time`
(llm_utils.py lines 189-193): a failed combined parse returns both phrases
unchanged. -/
def bothBranch (parse : String → Option PyDateTime) (d t : String) :
    Option String × Option String :=
  match parse (d ++ " " ++ t) with
  | none => (some d, some t)
  | some dt => (some dt.ymd, some dt.hm)

/-- The `if date_str and not time_str` branch of `normalize_date_time`
(llm_utils.py lines 194-198): a failed parse returns the date phrase
unchanged. -/
def dateOnlyBranch (parse : String → Option PyDateTime) (d : String) :
    Option String × Option String :=
  match parse d with
  | none => (some d, none)
  | some dt => (some dt.ymd, none)

/-- The `if time_str and not date_str` branch of `normalize_date_time`
(llm_utils.py lines 199-203): a failed parse returns the time phrase
unchanged. -/
def timeOnlyBranch (parse : String → Option PyDateTime) (t : String) :
    Option String × Option String :=
  match parse t with
  | none => (none, some t)
  | some dt => (none, some dt.hm)

/-- `normalize_date_time` (llm_utils.py lines 160-204), with the external
`dateparser.parse` call abstracted as `parse`. -/
def normalize_date_time (parse : String → Option PyDateTime)
    (date_str time_str : Option String) : Option String × Option String :=
  if !pyTruthy date_str && !pyTruthy time_str then (none, none)
  else
    match timeFriendly time_str with
    | some canon =>
        let norm_date :=
          match date_str with
          | some d => if d = "" then none else (parse d).map (fun x => x.ymd)
          | none => none
        (norm_date, some canon)
    | none =>
        match dateTokenBranch parse date_str with
        | some res => res
        | none =>
            if pyTruthy date_str && pyTruthy time_str then
              bothBranch parse (date_str.getD "") (time_str.getD "")
            else if pyTruthy date_str then
              dateOnlyBranch parse (date_str.getD "")
            else if pyTruthy time_str then
              timeOnlyBranch parse (time_str.getD "")
            else (none, none)

/-- A parse function on which every phrase fails, for concrete evaluations. -/
def parseNone : String → Option PyDateTime := fun _ => none

-- -------------------------------------------------------------------
-- Text sanitizer (main.py lines 144-148, llm_utils.py lines 135-140)
-- -------------------------------------------------------------------

/-- Characters removed by `re.sub(r"[​-‏﻿]", "", s)`. -/
def isZeroWidth (c : Char) : Bool :=
  (0x200B ≤ c.toNat && c.toNat ≤ 0x200F) || c.toNat = 0xFEFF

/-- Replace each whitespace run by a single space, as
`re.sub(r"\s+", " ", s)` does (ASCII whitespace suffices for the values in
play). -/
def collapseSpacesAux : Bool → List Char → List Char
  | _, [] => []
  | lastSp, c :: rest =>
      if pyIsSpaceChar c then
        if lastSp then collapseSpacesAux true rest
        else ' ' :: collapseSpacesAux true rest
      else c :: collapseSpacesAux false rest

/-- `sanitize_text_value_local` (main.py lines 144-148): drop zero-width
characters, collapse whitespace runs, strip. -/
def sanitize_text_value (s : String) : String :=
  pyStrip (String.mk (collapseSpacesAux false (s.data.filter (fun c => !isZeroWidth c))))

/-- Null-safe sanitization as applied per key at main.py lines 1051-1053. -/
def sanitizeOpt (v : Option String) : Option String :=
  v.map sanitize_text_value

-- -------------------------------------------------------------------
-- Dialogue controller handlers (main.py)
-- -------------------------------------------------------------------

/-- What a handler caused to be sent for the next turn. -/
inductive NextAction where
  | ask (f : Field)
  | confirmPrompt
  | reprompt
  | silent
deriving Repr, DecidableEq

/-- Field writes of the location-message handler before its dispatch (main.py
lines 276-287): store the address, drop `awaiting_address`, and clear
`awaiting_field` when it named `location`. -/
def locUpdate (s : Session) (address : String) : Session :=
  let s := { s with
    location := some address
    location_address := some address
    location_coords := none
    last_interaction := some "location"
    awaiting_address := false }
  if s.awaiting_field = some "location" then { s with awaiting_field := none } else s

/-- The location-message handler (main.py lines 276-341) for a shared location
carrying a name or address and no coordinates: acknowledge, then either move
to `confirming` when the completeness guard of line 288 passes, or ask for the
next field in the order time, date, category, sub_category of lines 298-339
(the time and date prompts are suppressed while another question is
outstanding; the category and sub-category prompts are not guarded and do not
set `awaiting_field`). -/
def locationHandler (s0 : Session) (address : String) : Session × NextAction :=
  let s := locUpdate s0 address
  if requiredComplete s && timeNotSentinel s then
    ({ s with state := some "confirming", awaiting_address := false }, .confirmPrompt)
  else if !pyTruthy s.time then
    if s.awaiting_field ≠ none then (s, .silent)
    else ({ s with awaiting_field := some "time" }, .ask .time)
  else if !pyTruthy s.date then
    if s.awaiting_field ≠ none then (s, .silent)
    else ({ s with awaiting_field := some "date" }, .ask .date)
  else if !pyTruthy s.category then (s, .ask .category)
  else if !pyTruthy s.sub_category then (s, .ask .sub_category)
  else (s, .silent)

/-- Field writes of the typed-address handler before its dispatch (main.py
lines 416-425): store the sanitized address, drop the coordinates, clear
`awaiting_address`, and clear `awaiting_field` when it named `location`. -/
def typedAddressApply (s : Session) (address : String) : Session :=
  let s := { s with
    location := some (sanitize_text_value address)
    location_address := some (sanitize_text_value address)
    location_coords := none
    awaiting_address := false
    last_interaction := some "typed_address" }
  if s.awaiting_field = some "location" then { s with awaiting_field := none } else s

/-- The typed-address handler (main.py lines 411-468), reached while
`awaiting_address` is set on a text message with a non-empty body: store the
sanitized address, then either move to `confirming` when the completeness
guard of line 427 passes, or ask for the next field in the order time, date,
category, sub_category of lines 434-467 (only the time prompt is suppressed
while another question is outstanding; the date, category and sub-category
prompts set no `awaiting_field`). -/
def typedAddressHandler (s0 : Session) (address : String) : Session × NextAction :=
  let s := typedAddressApply s0 address
  if requiredComplete s && timeNotSentinel s then
    ({ s with state := some "confirming" }, .confirmPrompt)
  else if !pyTruthy s.time then
    if s.awaiting_field ≠ none then (s, .silent)
    else ({ s with awaiting_field := some "time" }, .ask .time)
  else if !pyTruthy s.date then (s, .ask .date)
  else if !pyTruthy s.category then (s, .ask .category)
  else if !pyTruthy s.sub_category then (s, .ask .sub_category)
  else (s, .silent)

/-- The terminal branches of the LLM-path prompt chain (main.py lines
1233-1248), reached when no earlier elif fired — that is, when
`llmNextField entities = none`: under the completeness-and-sentinel guard of
line 1233 the session moves to `confirming` with `awaiting_address` popped and
`awaiting_field` cleared (lines 1234-1245); otherwise the fallback reply is
sent (lines 1246-1248). -/
def llmConfirmSite (entities : Session) : Session × NextAction :=
  if requiredComplete entities && timeNotSentinel entities then
    ({ entities with
        state := some "confirming"
        awaiting_address := false
        last_interaction := some "asked_to_confirm"
        awaiting_field := none }, .confirmPrompt)
  else (entities, .silent)

/-- First run of one to three digits in a text, as `re.search(r"(\d{1,3})")`
finds it. -/
def firstDigitRun : List Char → Option (List Char)
  | [] => none
  | c :: cs =>
      if c.isDigit then some (((c :: cs).takeWhile Char.isDigit).take 3)
      else firstDigitRun cs

/-- Numeric value of a digit run. -/
def digitsToNat (ds : List Char) : Nat :=
  ds.foldl (fun n c => 10 * n + (c.toNat - 48)) 0

/-- The typed-age handler (main.py lines 478-505), reached while
`awaiting_field == "age"`: parse the first 1-3 digit run, re-prompt when there
is none or it is out of 1-120, otherwise store the age, clear
`awaiting_field`, and move to `confirming` when the completeness guard of
line 499 passes (`.silent` marks the fall-through to the rest of the
handler). -/
def ageHandler (s : Session) (ageText : String) : Session × NextAction :=
  match firstDigitRun (pyStrip ageText).data with
  | none => (s, .reprompt)
  | some ds =>
      let v := digitsToNat ds
      if v = 0 || v > 120 then (s, .reprompt)
      else
        let s := { s with
          age := some (toString v)
          awaiting_field := none
          last_interaction := some "typed_age" }
        if requiredComplete s && timeNotSentinel s then
          ({ s with state := some "confirming" }, .confirmPrompt)
        else (s, .silent)

/-- Field writes of the date-selection handler before its dispatch (main.py
lines 727-737): store the chosen date and clear `awaiting_field` when it named
`date`. -/
def dateApply (s : Session) (chosen : String) : Session :=
  let s := { s with date := some chosen, last_interaction := some "date_selected" }
  if s.awaiting_field = some "date" then { s with awaiting_field := none } else s

/-- The date-selection handler (main.py lines 726-835): after storing the
chosen date, prompt for the first missing field of
`["time", "age", "location", "category", "sub_category"]` (each prompt except
the sub-category one suppressed while a question is outstanding), and when
nothing is missing move to `confirming` under the guard of lines 826-827
(which does not list `age`). -/
def dateHandler (s0 : Session) (chosen : String) : Session × NextAction :=
  let s := dateApply s0 chosen
  match firstMissing priority_after_date s with
  | some .time =>
      if s.awaiting_field = none then ({ s with awaiting_field := some "time" }, .ask .time)
      else (s, .silent)
  | some .age =>
      if s.awaiting_field = none then ({ s with awaiting_field := some "age" }, .ask .age)
      else (s, .silent)
  | some .location =>
      if !s.awaiting_address && s.awaiting_field = none then
        ({ s with
            awaiting_address := true
            last_interaction := some "asked_for_address"
            awaiting_field := some "location" }, .ask .location)
      else (s, .silent)
  | some .category =>
      if s.awaiting_field = none then ({ s with awaiting_field := some "category" }, .ask .category)
      else (s, .silent)
  | some .sub_category =>
      ({ s with awaiting_field := some "sub_category" }, .ask .sub_category)
  | some .date => (s, .silent)
  | none =>
      if pyTruthy s.date && pyTruthy s.time && pyTruthy s.category &&
          pyTruthy s.sub_category && pyTruthy s.location && timeNotSentinel s then
        ({ s with state := some "confirming", awaiting_field := none }, .confirmPrompt)
      else (s, .silent)

/-- `interactive_time_map` (main.py line 471). -/
def interactive_time_map (m : String) : Option String :=
  if m = "morning" then some "09:00"
  else if m = "afternoon" then some "15:00"
  else if m = "evening" then some "18:00"
  else none

/-- Field writes of the time-selection handler (main.py lines 840-843): store
the mapped canonical time and clear `awaiting_field` unconditionally. -/
def timeApply (s : Session) (chosen : String) : Session :=
  { s with time := some chosen, last_interaction := some "time_selected", awaiting_field := none }

/-- The time-selection handler (main.py lines 838-931): store the mapped
canonical time, clear `awaiting_field` unconditionally (line 843), then
prompt for the first missing field of
`["date", "age", "location", "category", "sub_category"]`, or move to
`confirming` under the guard of lines 922-923 (all six fields truthy, with no
sentinel test).  Returns `none` when the text is not a time-button label. -/
def timeHandler (s0 : Session) (mapped : String) : Option (Session × NextAction) :=
  match interactive_time_map mapped with
  | none => none
  | some chosen =>
      let s := timeApply s0 chosen
      some (match firstMissing priority_after_time s with
      | some .date =>
          if s.awaiting_field = none then ({ s with awaiting_field := some "date" }, .ask .date)
          else (s, .silent)
      | some .age =>
          if s.awaiting_field = none then ({ s with awaiting_field := some "age" }, .ask .age)
          else (s, .silent)
      | some .location =>
          if !s.awaiting_address then
            ({ s with
                awaiting_address := true
                last_interaction := some "asked_for_address_after_time"
                awaiting_field := some "location" }, .ask .location)
          else (s, .silent)
      | some .category =>
          if s.awaiting_field = none then
            ({ s with awaiting_field := some "category" }, .ask .category)
          else (s, .silent)
      | some .sub_category =>
          ({ s with awaiting_field := some "sub_category" }, .ask .sub_category)
      | some .time => (s, .silent)
      | none =>
          if requiredComplete s then
            ({ s with state := some "confirming", awaiting_field := none }, .confirmPrompt)
          else (s, .silent))

/-- BUTTON_MAPPINGS of llm_utils.py lines 29-54.  Note it has no entries for
the medicine-delivery option ids `send_doctors_prescription` and
`type_the_medicine` that main.py sends (lines 333-334, 460-461, 544-547). -/
def BUTTON_MAPPINGS : List (String × String) :=
  [ ("date_today", "today"), ("date_tomorrow", "tomorrow"), ("date_pick", "pick"),
    ("time_morning", "morning"), ("time_afternoon", "afternoon"), ("time_evening", "evening"),
    ("care_at_home", "care at home"), ("medicine_delivery", "medicine delivery"),
    ("lab_test", "lab test"), ("nurse_visit", "nurse visit"),
    ("physiotherapy", "physiotherapy"), ("elderly_care", "elderly care"),
    ("post_surgery_care", "post surgery care"), ("regular_meds", "regular medicines"),
    ("urgent_meds", "urgent medicines"), ("prescription_upload", "upload prescription"),
    ("blood_test", "blood test"), ("urine_test", "urine test"),
    ("covid_test", "covid test"), ("full_body_checkup", "full body checkup"),
    ("share_location", "share_location"), ("type_address", "type_address"),
    ("confirm_yes", "confirm_yes"), ("confirm_no", "confirm_no") ]

/-- The prefix-stripping loop of main.py lines 509-511: drop the first of the
prefixes `date_`, `time_`, `confirm_`, `btn_` that matches, then stop. -/
def stripButtonPrefix (m : String) : String :=
  if "date_".data.isPrefixOf m.data then String.mk (m.data.drop 5)
  else if "time_".data.isPrefixOf m.data then String.mk (m.data.drop 5)
  else if "confirm_".data.isPrefixOf m.data then String.mk (m.data.drop 8)
  else if "btn_".data.isPrefixOf m.data then String.mk (m.data.drop 4)
  else m

/-- The mapped text of main.py lines 507-511:
`BUTTON_MAPPINGS.get(user_text, user_text)`, stripped and lowered, then
prefix-stripped.  This is what the structured-selection handlers compare
against. -/
def mapButtonText (user_text : String) : String :=
  let m := ((BUTTON_MAPPINGS.find? (fun p => p.1 = user_text)).map (fun p => p.2)).getD user_text
  stripButtonPrefix (pyLower (pyStrip m))

/-- The stored sub-category value of the medicine-delivery "Send Prescription"
choice (main.py lines 514-521). -/
def sendRx : String := "send doctor\x27s prescription"

/-- The medicine-delivery sub-category choice handler (main.py lines 514-526):
store the mapped text as `sub_category` with no validation and await the
prescription upload or the typed medicine names.  Returns `none` when the
mapped text is neither choice. -/
def medicineChoiceHandler (s : Session) (mapped_text : String) : Option Session :=
  if mapped_text = sendRx || mapped_text = "type the medicine" then
    let s := { s with sub_category := some mapped_text }
    if mapped_text = sendRx then
      some { s with awaiting_field := some "prescription_upload" }
    else
      some { s with awaiting_field := some "medicine_text" }
  else none

/-- The free-text "today" shortcut (main.py lines 1083-1108), reached when the
message matched the shortcut regex and the session has a category or
sub-category: store today as the date, clear `awaiting_field` unconditionally,
then either ask for a time or move straight to `confirming` checking only that
`time` is truthy (`.silent` marks the non-matching fall-through). -/
def todayShortcut (s : Session) (todayStr : String) : Session × NextAction :=
  if pyTruthy s.category || pyTruthy s.sub_category then
    let s := { s with date := some todayStr, awaiting_field := none }
    if !pyTruthy s.time then (s, .ask .time)
    else ({ s with state := some "confirming" }, .confirmPrompt)
  else (s, .silent)

/-- The session rewrite of main.py lines 1043-1061 when `process_user_message`
takes its conversational-fallback path (llm_utils.py lines 499-506, entities
returned equal to the previous session): the dict merge
`{**existing, **clean_entities}` is then the identity, the contact-name fill
is skipped for a sender with no profile name, and the four text fields are
sanitized in place. -/
def llmFallbackMergeStep (s : Session) : Session :=
  { s with
    category := sanitizeOpt s.category
    sub_category := sanitizeOpt s.sub_category
    location := sanitizeOpt s.location
    name := sanitizeOpt s.name
    last_interaction := some "llm_processed" }

/-- A full text event whose lowercase body contains the word "today" and no
time-of-day word, under a failing Semantic Extractor call: the free-text fast
path (main.py lines 933-1021) stores today as the date and prompts for the
first missing field of `["time", "age", "location", "category",
"sub_category"]`; when nothing is missing it falls through to the LLM step
(main.py lines 1043-1061, modelled by `llmFallbackMergeStep`) and then the
"today" shortcut (main.py lines 1083-1108). -/
def todayTextEvent (s0 : Session) (todayStr : String) : Session × NextAction :=
  let s := { s0 with date := some todayStr }
  let s := if s.awaiting_field = some "date" then { s with awaiting_field := none } else s
  let s := { s with last_interaction := some "free_text_datetime" }
  match firstMissing priority_after_date s with
  | some .time =>
      if s.awaiting_field = none then ({ s with awaiting_field := some "time" }, .ask .time)
      else (s, .silent)
  | some .age =>
      if s.awaiting_field = none then ({ s with awaiting_field := some "age" }, .ask .age)
      else (s, .silent)
  | some .location =>
      if !s.awaiting_address && s.awaiting_field = none then
        ({ s with
            awaiting_address := true
            last_interaction := some "asked_for_address_after_free_text"
            awaiting_field := some "location" }, .ask .location)
      else (s, .silent)
  | some .category =>
      if s.awaiting_field = none then ({ s with awaiting_field := some "category" }, .ask .category)
      else (s, .silent)
  | some .sub_category =>
      ({ s with awaiting_field := some "sub_category" }, .ask .sub_category)
  | some .date => (s, .silent)
  | none =>
      todayShortcut (llmFallbackMergeStep s) todayStr

/-- Well-formed values of `awaiting_field`: `None` or one of the eight names
the controller assigns (main.py lines 307, 320, 440, 494, 518, 523, 533, 588,
597, 602, 607, and the matching later sites). -/
def afOk : Option String → Bool
  | none => true
  | some n =>
      ["date", "time", "age", "location", "category", "sub_category",
        "prescription_upload", "medicine_text"].contains n

-- -------------------------------------------------------------------
-- Theorems
-- -------------------------------------------------------------------

/-- C2.  Reconciler merge precedence (llm_utils.py lines 508-519): for every
schema field and every combination of previous value, Fast Extractor value and
Semantic Extractor value, the merged slot holds the first non-empty value in
the order previous, fast, semantic; in particular a truthy previous value
(such as `category == "lab test"`) is never overwritten by either extractor,
and when every candidate is empty the previous value is kept. -/
theorem c2_merge_precedence (prev rb llm : Option String) :
    (pyTruthy prev = true → mergeField prev rb llm = prev) ∧
    (pyTruthy prev = false → pyNonEmptyVal rb = true → mergeField prev rb llm = rb) ∧
    (pyTruthy prev = false → pyNonEmptyVal rb = false → pyNonEmptyVal llm = true →
      mergeField prev rb llm = llm) ∧
    (pyTruthy prev = false → pyNonEmptyVal rb = false → pyNonEmptyVal llm = false →
      mergeField prev rb llm = prev) := by
  have hsame : ∀ v : Option String, pyNonEmptyVal v = pyTruthy v := by
    intro v; cases v <;> rfl
  refine ⟨fun h1 => ?_, fun h1 h2 => ?_, fun h1 h2 h3 => ?_, fun h1 h2 h3 => ?_⟩ <;>
    simp_all [mergeField, hsame]

/-- Witness for C2 at the concrete example of the specification: previous
category `"lab test"` survives both extractors proposing `"care at home"`, and
with an empty previous slot the Fast Extractor value wins. -/
theorem c2_merge_precedence_witness :
    mergeField (some "lab test") (some "care at home") (some "care at home") = some "lab test" ∧
    mergeField none (some "care at home") (some "lab test") = some "care at home" :=
  ⟨(c2_merge_precedence (some "lab test") (some "care at home") (some "care at home")).1
      (by decide),
    (c2_merge_precedence none (some "care at home") (some "lab test")).2.1
      (by decide) (by decide)⟩

/-- C4.  Sub-category validity after reconciliation (llm_utils.py lines
527-534): whenever the merged category is truthy, its normalized form has an
allowed sub-category list, and the merged sub_category is a non-empty value
whose stripped lowercase form is not in the normalized allowed list, the
reconciler stores `sub_category` as null and changes nothing else — the value
is silently discarded, never rejected with an error. -/
theorem c4_subcategory_enforced (s : Session) (allowed : List String) (sub : String)
    (hcat : pyTruthy s.category = true)
    (hlook : lookupCategory (normalize_category_for_compare s.category) = some allowed)
    (hne : allowed ≠ [])
    (hsub : s.sub_category = some sub) (hsubne : sub ≠ "")
    (hmem : pyLower (pyStrip sub) ∉ allowed.map (fun x => pyLower (pyStrip x))) :
    enforce_subcategory s = { s with sub_category := none } := by
  simp [enforce_subcategory, hcat, hlook, hne, hsub, hsubne, hmem]

/-- Witness for C4 at the example of the specification: `category = "care at
home"` with `sub_category = "urgent medicines"` is stored as null. -/
theorem c4_subcategory_enforced_witness :
    enforce_subcategory
        { make_empty_session with
            category := some "care at home", sub_category := some "urgent medicines" } =
      { make_empty_session with category := some "care at home", sub_category := none } := by
  have h := c4_subcategory_enforced
    { make_empty_session with
        category := some "care at home", sub_category := some "urgent medicines" }
    ["nurse visit", "physiotherapy", "elderly care", "post surgery care"]
    "urgent medicines" (by decide) (by decide) (by decide) (by decide) (by decide) (by decide)
  exact h

/-- C5.  Affirmative replies outside `confirming` (main.py lines 344-378): for
every stored session whose state is not `"confirming"` (including no stored
session at all), an affirmative reply takes the menu branch — no
confirmed-booking record is emitted, the session is not reset, the three-option
service menu is re-shown, and the stored session is returned unchanged. -/
theorem c5_yes_outside_confirming (stored : Option Session) (userText : String)
    (haff : isAffirmative userText = true)
    (hst : stateOf stored ≠ some "confirming") :
    confirmReplyHandler stored userText = some (.menuShown, stored) := by
  simp [confirmReplyHandler, haff, hst]

/-- Witness for C5: the text "yes" against a fresh `main_menu` session re-shows
the menu and leaves the session unchanged. -/
theorem c5_yes_outside_confirming_witness :
    confirmReplyHandler (some make_empty_session) "yes" =
      some (.menuShown, some make_empty_session) :=
  c5_yes_outside_confirming (some make_empty_session) "yes" (by decide) (by decide)

/-- C6.  Duplicate-event idempotence (main.py lines 229-237): after any
delivery of an event id the id is in the recently-seen set, a delivery whose
id is already in the set leaves the set unchanged, and an immediate
re-delivery of the same id through the webhook performs no session mutation
and emits no outbound message — processing the event twice equals processing
it once. -/
theorem c6_duplicate_idempotent (ids : List String) (sess : Option Session) (mid : String)
    (body : Option Session → Option Session × List String) :
    mid ∈ (dedupe ids mid).2 ∧
    (∀ ids2 : List String, mid ∈ ids2 → dedupe ids2 mid = (true, ids2)) ∧
    webhookStep (webhookStep ids sess mid body).1 (webhookStep ids sess mid body).2.1 mid body =
      ((webhookStep ids sess mid body).1, (webhookStep ids sess mid body).2.1, []) := by
  have hmem : mid ∈ (dedupe ids mid).2 := by
    by_cases h : mid ∈ ids <;> simp [dedupe, h]
  refine ⟨hmem, ?_, ?_⟩
  · intro ids2 h2; simp [dedupe, h2]
  · have hdup : ∀ (ids2 : List String) (s2 : Option Session), mid ∈ ids2 →
        webhookStep ids2 s2 mid body = (ids2, s2, []) := by
      intro ids2 s2 h2
      simp [webhookStep, dedupe, h2]
    have hmem1 : mid ∈ (webhookStep ids sess mid body).1 := by
      by_cases h : mid ∈ ids <;> simp [webhookStep, dedupe, h]
    exact hdup _ _ hmem1

/-- A concrete webhook body for the C6 witness: leave the session as it is and
send one message. -/
def bodyW : Option Session → Option Session × List String :=
  fun s => (s, ["menu"])

/-- Witness for C6 at a concrete event id, empty seen set and the body
`bodyW`. -/
theorem c6_duplicate_idempotent_witness :
    "wamid.1" ∈ (dedupe [] "wamid.1").2 ∧
    dedupe ["wamid.1"] "wamid.1" = (true, ["wamid.1"]) ∧
    webhookStep (webhookStep [] none "wamid.1" bodyW).1
        (webhookStep [] none "wamid.1" bodyW).2.1 "wamid.1" bodyW =
      ((webhookStep [] none "wamid.1" bodyW).1,
        (webhookStep [] none "wamid.1" bodyW).2.1, []) :=
  ⟨(c6_duplicate_idempotent [] none "wamid.1" bodyW).1,
    (c6_duplicate_idempotent [] none "wamid.1" bodyW).2.1 ["wamid.1"] (by decide),
    (c6_duplicate_idempotent [] none "wamid.1" bodyW).2.2⟩

/-- C10 counterexample.  The medicine-delivery option ids that main.py sends
(`send_doctors_prescription`, `type_the_medicine`) are absent from
BUTTON_MAPPINGS and carry none of the stripped prefixes, so the mapped text of
a structured selection is the raw id, which the choice handler at main.py
lines 514-526 does not match — a session built via these buttons never
receives the unvalidated sub-category values the claim describes. -/
theorem c10_button_ids_never_reach_handler :
    BUTTON_MAPPINGS.find? (fun p => p.1 = "send_doctors_prescription") = none ∧
    BUTTON_MAPPINGS.find? (fun p => p.1 = "type_the_medicine") = none ∧
    mapButtonText "send_doctors_prescription" = "send_doctors_prescription" ∧
    mapButtonText "type_the_medicine" = "type_the_medicine" ∧
    medicineChoiceHandler make_empty_session (mapButtonText "send_doctors_prescription") =
      none ∧
    medicineChoiceHandler make_empty_session (mapButtonText "type_the_medicine") = none := by
  decide

/-- C10 as amended.  The medicine-delivery choice handler (main.py lines
514-526) stores `"send doctor's prescription"` or `"type the medicine"` into
`sub_category` with no validation, and neither value belongs to the
reconciler's allowed set for `"medicine delivery"` (llm_utils.py lines 20-22),
so the membership invariant fails for such sessions and a later pass through
the reconciler's validation (llm_utils.py lines 527-534) nulls the
sub_category.  But the handler is reached only by message text whose mapped
form equals one of the labels (for example the typed texts below), never by
the structured button ids, which do not map to the labels. -/
theorem c10_medicine_subcategory_invalid (s : Session) :
    ((medicineChoiceHandler s sendRx).map Session.sub_category = some (some sendRx)) ∧
    ((medicineChoiceHandler s "type the medicine").map Session.sub_category =
        some (some "type the medicine")) ∧
    lookupCategory "medicine delivery" =
      some ["regular medicines", "urgent medicines", "upload prescription"] ∧
    ((["regular medicines", "urgent medicines", "upload prescription"].map
        (fun x => pyLower (pyStrip x))).contains (pyLower (pyStrip sendRx)) = false) ∧
    ((["regular medicines", "urgent medicines", "upload prescription"].map
        (fun x => pyLower (pyStrip x))).contains (pyLower (pyStrip "type the medicine")) =
      false) ∧
    (enforce_subcategory
        { make_empty_session with
            category := some "medicine delivery", sub_category := some sendRx }).sub_category
      = none ∧
    (enforce_subcategory
        { make_empty_session with
            category := some "medicine delivery",
            sub_category := some "type the medicine" }).sub_category = none ∧
    mapButtonText "Type the medicine" = "type the medicine" ∧
    mapButtonText "send doctor\x27s prescription" = sendRx := by
  refine ⟨?_, ?_, by decide, by decide, by decide, by decide, by decide, by decide, by decide⟩
  · simp [medicineChoiceHandler, sendRx]
  · simp [medicineChoiceHandler, sendRx]

/-- A field that is not `is_missing` holds a truthy value. -/
theorem pyTruthy_of_not_missing (s : Session) (f : Field) (h : is_missing s f = false) :
    pyTruthy (getField s f) = true := by
  unfold is_missing at h
  cases hv : getField s f with
  | none => rw [hv] at h; simp at h
  | some v =>
      rw [hv] at h
      simp only [Bool.or_eq_false_iff, decide_eq_false_iff_not] at h
      simp only [pyTruthy, ne_eq, decide_eq_true_eq]
      intro hnil
      exact h.1 (by rw [hnil]; rfl)

/-- Reduction of `dateTokenBranch` when no friendly token occurs in the date
phrase. -/
theorem dateTokenBranch_none (parse : String → Option PyDateTime) (d : String) (hd : d ≠ "")
    (htok : friendly_times.find? (fun p => (pySplit (pyLower d)).contains p.1) = none) :
    dateTokenBranch parse (some d) = none := by
  simp only [dateTokenBranch]
  rw [if_neg hd, htok]

/-- Reduction of `dateTokenBranch` when a friendly token occurs in the date
phrase. -/
theorem dateTokenBranch_some (parse : String → Option PyDateTime) (d tok canon : String)
    (hd : d ≠ "")
    (htok : friendly_times.find? (fun p => (pySplit (pyLower d)).contains p.1) =
      some (tok, canon)) :
    dateTokenBranch parse (some d) =
      some
        ((if pyStrip (joinSpace ((pySplit (pyLower d)).filter (fun p => p ≠ tok))) ≠ "" then
            parse (joinSpace ((pySplit (pyLower d)).filter (fun p => p ≠ tok)))
          else none).map (fun x => x.ymd),
          some canon) := by
  simp only [dateTokenBranch]
  rw [if_neg hd, htok]

/-- C7.  `normalize_date_time` (llm_utils.py lines 160-204) on the phrase
"today" with a null time returns the `%Y-%m-%d` rendering of whatever datetime
the date parser resolves "today" to (the current calendar date) paired with a
null time, and on a null date with the phrase "morning" returns a null date
paired with the canonical time "09:00". -/
theorem c7_normalize_today_morning (parse : String → Option PyDateTime) (d : PyDateTime)
    (h : parse "today" = some d) :
    normalize_date_time parse (some "today") none = (some d.ymd, none) ∧
    normalize_date_time parse none (some "morning") = (none, some "09:00") := by
  constructor
  · have hdtb : dateTokenBranch parse (some "today") = none := rfl
    simp [normalize_date_time, timeFriendly, hdtb, pyTruthy, dateOnlyBranch, h]
  · rfl

/-- Witness for C7 with a concrete parse function resolving "today". -/
theorem c7_normalize_today_morning_witness :
    normalize_date_time
        (fun s => if s = "today" then some ⟨"2026-10-12", "00:00"⟩ else none)
        (some "today") none = (some "2026-10-12", none) ∧
    normalize_date_time
        (fun s => if s = "today" then some ⟨"2026-10-12", "00:00"⟩ else none)
        none (some "morning") = (none, some "09:00") :=
  c7_normalize_today_morning
    (fun s => if s = "today" then some ⟨"2026-10-12", "00:00"⟩ else none)
    ⟨"2026-10-12", "00:00"⟩ (by decide)

/-- C8 counterexample.  With a date phrase the parser rejects,
`normalize_date_time` returns the phrase unchanged, not null: the claim that
the unparseable component comes back as null is false at this input. -/
theorem c8_unparseable_counterexample :
    normalize_date_time parseNone (some "gibberish") none = (some "gibberish", none) ∧
    (some "gibberish" : Option String) ≠ none := by
  exact ⟨by decide, by decide⟩

/-- C8 as amended.  `normalize_date_time` (llm_utils.py lines 160-204) never
raises (it is a total function) and on parse failure returns the supplied
phrase unchanged — in the date-only, time-only and combined branches the
unparseable component comes back as itself, not null; only a date phrase that
carries a recognized time-of-day word has its date part returned as null when
the remainder fails to parse. -/
theorem c8_unparseable_returned_unchanged (parse : String → Option PyDateTime) :
    (∀ d : String, d ≠ "" →
      friendly_times.find? (fun p => (pySplit (pyLower d)).contains p.1) = none →
      parse d = none →
      normalize_date_time parse (some d) none = (some d, none)) ∧
    (∀ t : String, t ≠ "" → friendlyLookup (pyLower t) = none → parse t = none →
      normalize_date_time parse none (some t) = (none, some t)) ∧
    (∀ d t : String, d ≠ "" → t ≠ "" → friendlyLookup (pyLower t) = none →
      friendly_times.find? (fun p => (pySplit (pyLower d)).contains p.1) = none →
      parse (d ++ " " ++ t) = none →
      normalize_date_time parse (some d) (some t) = (some d, some t)) ∧
    (∀ d tok canon : String, d ≠ "" →
      friendly_times.find? (fun p => (pySplit (pyLower d)).contains p.1) = some (tok, canon) →
      pyStrip (joinSpace ((pySplit (pyLower d)).filter (fun p => p ≠ tok))) ≠ "" →
      parse (joinSpace ((pySplit (pyLower d)).filter (fun p => p ≠ tok))) = none →
      normalize_date_time parse (some d) none = (none, some canon)) := by
  refine ⟨?_, ?_, ?_, ?_⟩
  · intro d hd htok hp
    have hb := dateTokenBranch_none parse d hd htok
    unfold normalize_date_time
    rw [hb]
    simp [timeFriendly, pyTruthy, hd, dateOnlyBranch, hp]
  · intro t ht hfl hp
    unfold normalize_date_time
    simp [timeFriendly, dateTokenBranch, pyTruthy, ht, hfl, timeOnlyBranch, hp]
  · intro d t hd ht hfl htok hp
    have hb := dateTokenBranch_none parse d hd htok
    unfold normalize_date_time
    rw [hb]
    simp [timeFriendly, pyTruthy, hd, ht, hfl, bothBranch, hp]
  · intro d tok canon hd htok hblank hp
    have hb := dateTokenBranch_some parse d tok canon hd htok
    unfold normalize_date_time
    rw [hb]
    simp only [ne_eq, decide_not] at hblank hp
    simp [timeFriendly, pyTruthy, hd, hblank, hp]

/-- Witness for the amended C8 at concrete unparseable phrases. -/
theorem c8_unparseable_returned_unchanged_witness :
    normalize_date_time parseNone (some "banana day") none = (some "banana day", none) ∧
    normalize_date_time parseNone none (some "sunsetish") = (none, some "sunsetish") ∧
    normalize_date_time parseNone (some "banana day") (some "sunsetish") =
      (some "banana day", some "sunsetish") ∧
    normalize_date_time parseNone (some "someday morning") none = (none, some "09:00") :=
  ⟨(c8_unparseable_returned_unchanged parseNone).1 "banana day" (by decide) (by decide) rfl,
    (c8_unparseable_returned_unchanged parseNone).2.1 "sunsetish" (by decide) (by decide) rfl,
    (c8_unparseable_returned_unchanged parseNone).2.2.1 "banana day" "sunsetish"
      (by decide) (by decide) (by decide) (by decide) rfl,
    (c8_unparseable_returned_unchanged parseNone).2.2.2 "someday morning" "morning" "09:00"
      (by decide) (by decide) (by decide) rfl⟩

/-- C1 counterexample.  On the shared-location path (main.py lines 298-322)
with both date and time missing, the controller prompts for time and sets
`awaiting_field` to `"time"`, while the first missing field in the claimed
order date, time, age, location, category, sub_category is `date`. -/
theorem c1_location_path_counterexample :
    (locationHandler make_empty_session "12 Baker Street").2 = .ask .time ∧
    (locationHandler make_empty_session "12 Baker Street").1.awaiting_field = some "time" ∧
    firstMissing claim_priority (locationHandler make_empty_session "12 Baker Street").1 =
      some .date := by
  decide

/-- C1 as amended.  The structured date-selection, time-selection,
sub-category, medicine-text and prescription handlers prompt for the first
missing field of the fixed order date, time, age, location, category,
sub_category: each scans exactly the not-yet-supplied remainder of that order,
so its choice agrees with the first missing field of the full order.  The
free-text fast path follows the order only when a date word was found
(scanning time, age, location, category, sub_category; or age, location,
category, sub_category when a time word was found too, both fields then being
just supplied); when only a time-of-day word is found it scans the same age,
location, category, sub_category list and never prompts for date even if date
is still missing.  The shared-location path instead scans time, date,
category, sub_category (so with date and time both missing it asks for time
first and never prompts for age or location), and the LLM free-text path
checks location last (date, time, age, category, sub_category, location, with
plain-truthiness missing tests). -/
theorem c1_next_missing_field_order (s : Session) :
    (is_missing s .date = false →
      firstMissing priority_after_date s = firstMissing claim_priority s) ∧
    (is_missing s .time = false →
      firstMissing priority_after_time s = firstMissing claim_priority s) ∧
    (is_missing s .category = false → is_missing s .sub_category = false →
      firstMissing priority_subcat s = firstMissing claim_priority s) ∧
    (is_missing s .date = false → is_missing s .time = false →
      firstMissing priority_free_text_both s = firstMissing claim_priority s) ∧
    firstMissing priority_free_text_both s ≠ some Field.date ∧
    llmNextField s = llm_priority.find? (llmMissing s) := by
  refine ⟨?_, ?_, ?_, ?_, ?_, ?_⟩
  · intro h
    simp [firstMissing, priority_after_date, claim_priority, List.find?, h]
  · intro h
    cases hd : is_missing s .date <;>
      simp [firstMissing, priority_after_time, claim_priority, List.find?, h, hd]
  · intro h1 h2
    simp [firstMissing, priority_subcat, claim_priority, List.find?, h1, h2]
  · intro h1 h2
    simp [firstMissing, priority_free_text_both, claim_priority, List.find?, h1, h2]
  · intro hcontra
    simp only [firstMissing] at hcontra
    have hmem := List.mem_of_find?_eq_some hcontra
    simp [priority_free_text_both] at hmem
  · cases h1 : pyTruthy s.date <;>
      cases h2 : pyTruthy s.time <;>
        cases h3 : pyTruthy s.age <;>
          cases h4 : pyTruthy s.category <;>
            cases h5 : pyTruthy s.sub_category <;>
              cases h6 : pyTruthy s.location <;>
                by_cases h7 : s.time = some "00:00" <;>
                  simp [llmNextField, llm_priority, llmMissing, List.find?, getField,
                    h1, h2, h3, h4, h5, h6, h7]

/-- Witness session for C1: date, time, category and sub_category supplied,
age and location still missing. -/
def c1sess : Session :=
  { make_empty_session with
    date := some "2026-01-05", time := some "10:00",
    category := some "lab test", sub_category := some "blood test" }

/-- Witness for the amended C1: on `c1sess` each handler priority list picks
the same next field as the canonical order (namely `age`). -/
theorem c1_next_missing_field_order_witness :
    firstMissing priority_after_date c1sess = firstMissing claim_priority c1sess ∧
    firstMissing priority_after_time c1sess = firstMissing claim_priority c1sess ∧
    firstMissing priority_subcat c1sess = firstMissing claim_priority c1sess ∧
    firstMissing priority_free_text_both c1sess = firstMissing claim_priority c1sess :=
  ⟨(c1_next_missing_field_order c1sess).1 (by decide),
    (c1_next_missing_field_order c1sess).2.1 (by decide),
    (c1_next_missing_field_order c1sess).2.2.1 (by decide) (by decide),
    (c1_next_missing_field_order c1sess).2.2.2.1 (by decide) (by decide)⟩

/-- A zero-width space, U+200B: not whitespace for Python `str.strip`, but
removed by `sanitize_text_value`. -/
def zwsp : String := String.mk [Char.ofNat 0x200B]

/-- Counterexample session for C3: every required field filled, but the
location (captured raw from a shared location pin, main.py lines 267-279) is a
bare zero-width space. -/
def c3sess : Session :=
  { make_empty_session with
    age := some "30"
    date := some "2026-10-10"
    time := some "09:00"
    category := some "lab test"
    sub_category := some "blood test"
    location := some zwsp
    location_address := some zwsp }

/-- C3 counterexample.  A free-text event containing "today" on `c3sess`
passes the fast-path missing checks (a zero-width space is not stripped by
`str.strip`), falls through to the merge step whose sanitization empties the
location, and the "today" shortcut (main.py lines 1083-1108) then sets
`state = "confirming"` while `location` is the empty string — the transition
happens without all six required fields non-empty. -/
theorem c3_confirming_counterexample :
    (todayTextEvent c3sess "2026-10-12").2 = .confirmPrompt ∧
    (todayTextEvent c3sess "2026-10-12").1.state = some "confirming" ∧
    (todayTextEvent c3sess "2026-10-12").1.location = some "" ∧
    requiredComplete (todayTextEvent c3sess "2026-10-12").1 = false := by
  decide

/-- C3 as amended.  At the shared-location, typed-address, typed-age,
date-selection, time-selection and LLM-chain transition sites, the moment the
session is set to `"confirming"` all six required fields are non-empty and
time is not the sentinel "00:00" (for the date handler, whose guard at main.py
lines 826-827 omits `age`, completeness of `age` follows from the exhausted
priority scan; for the time handler, whose guard at lines 922-923 omits the
sentinel test, the just-stored button time is never "00:00").  The free-text
"today" shortcut (main.py lines 1083-1108) transitions checking only that
`time` is truthy and a category or sub-category is set, so the invariant is
not guaranteed there. -/
theorem c3_confirming_sites_complete :
    (∀ (s s' : Session) (addr : String),
      locationHandler s addr = (s', .confirmPrompt) →
      requiredComplete s' = true ∧ timeNotSentinel s' = true) ∧
    (∀ (s s' : Session) (addr : String),
      typedAddressHandler s addr = (s', .confirmPrompt) →
      requiredComplete s' = true ∧ timeNotSentinel s' = true) ∧
    (∀ (s s' : Session) (a : String),
      ageHandler s a = (s', .confirmPrompt) →
      requiredComplete s' = true ∧ timeNotSentinel s' = true) ∧
    (∀ (s s' : Session) (c : String),
      dateHandler s c = (s', .confirmPrompt) →
      requiredComplete s' = true ∧ timeNotSentinel s' = true) ∧
    (∀ (s s' : Session) (m : String),
      timeHandler s m = some (s', .confirmPrompt) →
      requiredComplete s' = true ∧ timeNotSentinel s' = true) ∧
    (∀ (e s' : Session),
      llmConfirmSite e = (s', .confirmPrompt) →
      requiredComplete s' = true ∧ timeNotSentinel s' = true) := by
  refine ⟨?_, ?_, ?_, ?_, ?_, ?_⟩
  · intro s s' addr hres
    simp only [locationHandler] at hres
    split at hres
    case isTrue hg =>
      simp only [Bool.and_eq_true] at hg
      rw [Prod.mk.injEq] at hres
      rw [← hres.1]
      exact ⟨hg.1, hg.2⟩
    case isFalse hg =>
      repeat' split at hres
      all_goals simp_all
  · intro s s' addr hres
    simp only [typedAddressHandler] at hres
    split at hres
    case isTrue hg =>
      simp only [Bool.and_eq_true] at hg
      rw [Prod.mk.injEq] at hres
      rw [← hres.1]
      exact ⟨hg.1, hg.2⟩
    case isFalse hg =>
      repeat' split at hres
      all_goals simp_all
  · intro s s' a hres
    simp only [ageHandler] at hres
    cases hd : firstDigitRun (pyStrip a).data with
    | none => simp only [hd] at hres; simp_all
    | some ds =>
        simp only [hd] at hres
        split at hres
        · simp_all
        · split at hres
          case isTrue hg =>
            simp only [Bool.and_eq_true] at hg
            rw [Prod.mk.injEq] at hres
            rw [← hres.1]
            exact ⟨hg.1, hg.2⟩
          case isFalse hg => simp_all
  · intro s s' c hres
    simp only [dateHandler] at hres
    cases hf : firstMissing priority_after_date (dateApply s c) with
    | some f =>
        simp only [hf] at hres
        cases f <;> repeat' split at hres
        all_goals simp_all
    | none =>
        simp only [hf] at hres
        split at hres
        case isTrue hg =>
          have hage : is_missing (dateApply s c) .age = false := by
            have h2 := (List.find?_eq_none.mp hf) Field.age (by simp [priority_after_date])
            simpa using h2
          have hta := pyTruthy_of_not_missing (dateApply s c) .age hage
          rw [Prod.mk.injEq] at hres
          rw [← hres.1]
          simp only [Bool.and_eq_true] at hg
          refine ⟨?_, hg.2⟩
          simp only [requiredComplete, Bool.and_eq_true]
          exact ⟨⟨⟨⟨⟨hg.1.1.1.1.1, hg.1.1.1.1.2⟩, hg.1.1.1.2⟩, hg.1.1.2⟩, hg.1.2⟩, hta⟩
        case isFalse hg => simp_all
  · intro s s' m hres
    simp only [timeHandler] at hres
    cases hit : interactive_time_map m with
    | none => rw [hit] at hres; exact Option.noConfusion hres
    | some chosen =>
        rw [hit] at hres
        have hch : chosen = "09:00" ∨ chosen = "15:00" ∨ chosen = "18:00" := by
          unfold interactive_time_map at hit
          split at hit
          · exact Or.inl (Option.some.inj hit).symm
          · split at hit
            · exact Or.inr (Or.inl (Option.some.inj hit).symm)
            · split at hit
              · exact Or.inr (Or.inr (Option.some.inj hit).symm)
              · exact absurd hit (by simp)
        have hres2 := Option.some.inj hres
        cases hf : firstMissing priority_after_time (timeApply s chosen) with
        | some f =>
            simp only [hf] at hres2
            cases f <;> repeat' split at hres2
            all_goals simp_all
        | none =>
            simp only [hf] at hres2
            split at hres2
            case isTrue hg =>
              rw [Prod.mk.injEq] at hres2
              rw [← hres2.1]
              refine ⟨hg, ?_⟩
              simp only [timeNotSentinel, timeApply]
              rcases hch with h | h | h <;> subst h <;> decide
            case isFalse hg => simp_all
  · intro e s' hres
    simp only [llmConfirmSite] at hres
    split at hres
    case isTrue hg =>
      simp only [Bool.and_eq_true] at hg
      rw [Prod.mk.injEq] at hres
      rw [← hres.1]
      exact ⟨hg.1, hg.2⟩
    case isFalse hg => simp_all

/-- Witness input session for the amended C3: everything but age supplied,
age awaited. -/
def c3sessA : Session :=
  { make_empty_session with
    date := some "2026-03-01"
    time := some "09:00"
    category := some "lab test"
    sub_category := some "blood test"
    location := some "5 High Street"
    awaiting_field := some "age" }

/-- Session produced by the typed-age handler on `c3sessA` and the text
"30". -/
def c3sessA_res : Session :=
  { make_empty_session with
    age := some "30"
    date := some "2026-03-01"
    time := some "09:00"
    category := some "lab test"
    sub_category := some "blood test"
    location := some "5 High Street"
    state := some "confirming"
    last_interaction := some "typed_age" }

/-- Witness for the amended C3: the typed-age transition on `c3sessA` lands in
a complete, non-sentinel session. -/
theorem c3_confirming_sites_complete_witness :
    requiredComplete c3sessA_res = true ∧ timeNotSentinel c3sessA_res = true :=
  c3_confirming_sites_complete.2.2.1 c3sessA c3sessA_res "30" (by decide)

/-- Counterexample session for C9: an age question is outstanding, category
and sub-category are set, date and time are not. -/
def c9sess : Session :=
  { make_empty_session with
    awaiting_field := some "age"
    category := some "lab test"
    sub_category := some "blood test" }

/-- C9 counterexample.  With `awaiting_field = "age"` and age still missing, a
time-button selection clears `awaiting_field` unconditionally (main.py line
843) and re-targets it at `"date"` — the outstanding age question is dropped
even though no age was supplied, contradicting the claim that the field is
cleared only when the attribute it names arrives. -/
theorem c9_awaiting_field_counterexample :
    c9sess.awaiting_field = some "age" ∧ c9sess.age = none ∧
    (timeHandler c9sess "morning").map
        (fun r => (r.1.awaiting_field, r.1.age, r.2)) =
      some (some "date", none, NextAction.ask Field.date) := by
  decide

/-- C9 as amended.  In every session reached through the embedded handlers,
`awaiting_field` is null or one of the eight names the controller assigns
(date, time, age, location, category, sub_category, prescription_upload,
medicine_text — the last two are flow labels, not schema field names), and it
is set immediately before the matching prompt; but it is not cleared only by
supplying the named attribute: the time-selection handler (main.py line 843)
and the "today" shortcut (line 1090) clear it unconditionally, so an
outstanding question for a different field can be dropped and replaced. -/
theorem c9_awaiting_field_range (s : Session) (addr c m a today : String)
    (h : afOk s.awaiting_field = true) :
    afOk (locationHandler s addr).1.awaiting_field = true ∧
    afOk (ageHandler s a).1.awaiting_field = true ∧
    afOk (dateHandler s c).1.awaiting_field = true ∧
    (∀ r : Session × NextAction, timeHandler s m = some r →
      afOk r.1.awaiting_field = true) ∧
    afOk (todayShortcut s today).1.awaiting_field = true ∧
    (∀ s1 : Session, medicineChoiceHandler s m = some s1 →
      afOk s1.awaiting_field = true) ∧
    afOk (todayTextEvent s today).1.awaiting_field = true := by
  refine ⟨?_, ?_, ?_, ?_, ?_, ?_, ?_⟩
  · simp only [locationHandler, locUpdate]
    repeat' split
    all_goals simp_all [afOk]
  · simp only [ageHandler]
    repeat' split
    all_goals simp_all [afOk]
  · simp only [dateHandler, dateApply]
    repeat' split
    all_goals simp_all [afOk]
  · intro r hr
    simp only [timeHandler, timeApply] at hr
    cases hit : interactive_time_map m with
    | none => rw [hit] at hr; exact Option.noConfusion hr
    | some chosen =>
        rw [hit] at hr
        have hr2 := Option.some.inj hr
        rw [← hr2]
        repeat' split
        all_goals simp_all [afOk]
  · simp only [todayShortcut]
    repeat' split
    all_goals simp_all [afOk]
  · intro s1 hs1
    simp only [medicineChoiceHandler] at hs1
    repeat' split at hs1
    · rw [← Option.some.inj hs1]; rfl
    · rw [← Option.some.inj hs1]; rfl
    · exact Option.noConfusion hs1
  · simp only [todayTextEvent, todayShortcut, llmFallbackMergeStep]
    repeat' split
    all_goals simp_all [afOk]

/-- Witness for the amended C9 at a fresh session and concrete inputs. -/
theorem c9_awaiting_field_range_witness :
    afOk (locationHandler make_empty_session "12 Main Road").1.awaiting_field = true ∧
    afOk (ageHandler make_empty_session "30").1.awaiting_field = true ∧
    afOk (dateHandler make_empty_session "2026-01-05").1.awaiting_field = true ∧
    afOk (todayShortcut make_empty_session "2026-01-05").1.awaiting_field = true ∧
    afOk (todayTextEvent make_empty_session "2026-01-05").1.awaiting_field = true := by
  have h := c9_awaiting_field_range make_empty_session "12 Main Road" "2026-01-05" "morning"
    "30" "2026-01-05" (by decide)
  exact ⟨h.1, h.2.1, h.2.2.1, h.2.2.2.2.1, h.2.2.2.2.2.2⟩

end Chatbot
